import Mathlib

/-!
Verification of the `first-flask` repository (src/app.py).

The source defines a Flask application object `app`, registers a single
route for the root path `"/"` via `@app.route('/')`, and the handler
`home_page` returns the constant string `"Hello from my Flask app!"`.

The handler and the route registration are embedded directly from the
source. The hosting framework's behaviour (Flask/Werkzeug routing,
default method set, default error responses, and the `flask run`
listener) is not part of the repository's source; those parts are
modelled from the specification, and are marked as such.
-/

namespace FirstFlask

/-- HTTP methods relevant to the routing semantics. -/
inductive Method where
  | GET
  | HEAD
  | POST
  | PUT
  | DELETE
  | PATCH
  | OPTIONS
deriving DecidableEq, Repr

/-- An inbound HTTP request as seen by the application: method, path,
and the request data the handler never reads (headers, query string,
body). -/
structure Request where
  method : Method
  path : String
  headers : List (String × String)
  query : String
  body : String

/-- An HTTP response: status code, content type and body. -/
structure Response where
  status : Nat
  contentType : String
  body : String
deriving DecidableEq, Repr

/-- Shallow embedding of `home_page` (src/app.py lines 6-7): a function
of no request data returning the constant greeting string. -/
def home_page (_ : Unit) : String := "Hello from my Flask app!"

/-- A routing rule: a path pattern, the set of accepted methods, and
the handler attached to the path. -/
structure Rule where
  path : String
  methods : List Method
  handler : Unit → String

/-- Modelled from the spec: the hosting framework's default method set
for a route registered without an explicit methods list (Flask adds
HEAD and OPTIONS automatically to the default GET); this machinery is
not part of src/app.py. -/
def defaultMethods : List Method := [Method.GET, Method.HEAD, Method.OPTIONS]

/-- The application's routing table, built once at startup by the
single registration `@app.route('/')` on `home_page` (src/app.py
lines 3-7): exactly one rule, mapping the root path to the handler. -/
def url_map : List Rule :=
  [{ path := "/", methods := defaultMethods, handler := home_page }]

/-- The default content type Flask attaches to a string return value. -/
def textHtml : String := "text/html; charset=utf-8"

/-- Modelled from the spec: the framework's wrapping of a handler's
string return value into a 200 response with a text content type; this
wrapping lives in Flask, not in src/app.py. -/
def stringResponse (s : String) : Response :=
  { status := 200, contentType := textHtml, body := s }

/-- Modelled from the spec: the framework's default not-found
response; only its non-200 status is specified. -/
def notFound : Response :=
  { status := 404, contentType := textHtml, body := "Not Found" }

/-- Modelled from the spec: the framework's default method-not-allowed
response; only its non-200 status is specified. -/
def methodNotAllowed : Response :=
  { status := 405, contentType := textHtml, body := "Method Not Allowed" }

/-- Modelled from the spec: the framework's automatic response to an
OPTIONS request on a registered route: status 200 with an empty body. -/
def optionsResponse : Response :=
  { status := 200, contentType := textHtml, body := "" }

/-- Modelled from the spec: the hosting framework's dispatch of an
inbound request against the routing table. A request whose path
matches no rule gets the default not-found response; a matching path
with a method outside the rule's method set gets the default
method-not-allowed response; otherwise the handler is invoked, with
the framework stripping the body for HEAD and answering OPTIONS
itself. This machinery is not part of src/app.py. -/
def dispatch (rules : List Rule) (req : Request) : Response :=
  match rules.find? (fun r => r.path == req.path) with
  | none => notFound
  | some r =>
      if r.methods.contains req.method then
        match req.method with
        | Method.HEAD => { stringResponse (r.handler ()) with body := "" }
        | Method.OPTIONS => optionsResponse
        | _ => stringResponse (r.handler ())
      else methodNotAllowed

/-- The observable program state surrounding the handler: the routing
table and a log. src/app.py mutates neither. -/
structure AppState where
  routes : List Rule
  log : List String

/-- The state of the application after startup: the routing table
holds the single registered route and nothing has been logged. -/
def initState : AppState := { routes := url_map, log := [] }

/-- State-passing embedding of request handling: the handler performs
no I/O, no state mutation and no logging (src/app.py lines 6-7 contain
only a return of a literal), so the state component passes through
untouched. -/
def dispatchSt (s : AppState) (req : Request) : Response × AppState :=
  (dispatch s.routes req, s)

/-- Exception-aware embedding of dispatch: every Python operation that
could raise would map to `Except.error`, but src/app.py lines 6-7
perform no I/O, parsing or computation that can raise, so every branch
returns `Except.ok`. -/
def dispatchE (rules : List Rule) (req : Request) : Except String Response :=
  match rules.find? (fun r => r.path == req.path) with
  | none => Except.ok notFound
  | some r =>
      if r.methods.contains req.method then
        match req.method with
        | Method.HEAD => Except.ok { stringResponse (r.handler ()) with body := "" }
        | Method.OPTIONS => Except.ok optionsResponse
        | _ => Except.ok (stringResponse (r.handler ()))
      else Except.ok methodNotAllowed

/-- Sequential execution of a batch of requests against the shared
state, threading the state through: one atomic handler step per
request. Any concurrent interleaving of the (single-expression,
state-preserving) handler is equivalent to one such sequential
schedule. -/
def runAll (s : AppState) (reqs : List Request) : List Response × AppState :=
  match reqs with
  | [] => ([], s)
  | req :: rest =>
      let p := dispatchSt s req
      let q := runAll p.2 rest
      (p.1 :: q.1, q.2)

/-- Modelled from the spec: the hosting entry point (`flask run`) is
absent from src/app.py, which only defines `app`; per the spec the
service listens on a configurable host/port, defaulting to
127.0.0.1:5000, and serves inbound HTTP requests by dispatching them
against the application's routing table. -/
structure Server where
  host : String
  port : Nat
  serve : Request → Response

/-- Modelled from the spec: starting the service with optional
host/port overrides; the framework defaults apply when none is given,
and the resulting listener serves requests via the routing table. -/
def run (host : Option String) (port : Option Nat) : Server :=
  { host := host.getD "127.0.0.1"
    port := port.getD 5000
    serve := fun req => dispatch url_map req }

/-- Dispatch reads only the method and path of a request: the headers,
query string and body never influence the response. -/
lemma dispatch_only_method_path (rules : List Rule) (r1 r2 : Request)
    (hm : r1.method = r2.method) (hp : r1.path = r2.path) :
    dispatch rules r1 = dispatch rules r2 := by
  obtain ⟨m1, p1, h1, q1, b1⟩ := r1
  obtain ⟨m2, p2, h2, q2, b2⟩ := r2
  simp only at hm hp
  subst hm; subst hp
  rfl

/-- Evaluating dispatch on a root GET request with arbitrary request
data. -/
lemma dispatch_root_get (req : Request) (hm : req.method = Method.GET)
    (hp : req.path = "/") :
    dispatch url_map req = stringResponse (home_page ()) := by
  obtain ⟨m, p, h, q, b⟩ := req
  simp only at hm hp
  subst hm; subst hp
  rfl

/-- The batch runner produces one response per request. -/
lemma runAll_length (s : AppState) (reqs : List Request) :
    (runAll s reqs).1.length = reqs.length := by
  induction reqs generalizing s with
  | nil => rfl
  | cons req rest ih => simp [runAll, dispatchSt, ih]

/-- The batch runner leaves the shared state unchanged. -/
lemma runAll_state (s : AppState) (reqs : List Request) :
    (runAll s reqs).2 = s := by
  induction reqs generalizing s with
  | nil => rfl
  | cons req rest ih => simp [runAll, dispatchSt, ih]

/-- Every response the batch runner produces is the dispatch of one of
the requests in the batch. -/
lemma runAll_mem (s : AppState) (reqs : List Request) (resp : Response)
    (h : resp ∈ (runAll s reqs).1) :
    ∃ req ∈ reqs, resp = dispatch s.routes req := by
  induction reqs generalizing s with
  | nil => simp [runAll] at h
  | cons req rest ih =>
      simp only [runAll, dispatchSt, List.mem_cons] at h
      rcases h with h | h
      · exact ⟨req, List.mem_cons_self _ _, h⟩
      · obtain ⟨r, hr, hrr⟩ := ih s h
        exact ⟨r, List.mem_cons_of_mem _ hr, hrr⟩

/-- C1: every invocation of the root handler with method GET and path
"/" returns a response with status code 200, a text/plain or text/html
content type, and body exactly "Hello from my Flask app!". -/
theorem C1_root_get_response (req : Request)
    (hm : req.method = Method.GET) (hp : req.path = "/") :
    (dispatch url_map req).status = 200 ∧
    ((dispatch url_map req).contentType = "text/plain; charset=utf-8" ∨
      (dispatch url_map req).contentType = "text/html; charset=utf-8") ∧
    (dispatch url_map req).body = "Hello from my Flask app!" := by
  rw [dispatch_root_get req hm hp]
  exact ⟨rfl, Or.inr rfl, rfl⟩

/-- C1 witness: the theorem applied to a concrete GET "/" request. -/
theorem C1_root_get_response_witness :
    (⟨Method.GET, "/", [("Host", "example")], "q=1", ""⟩ : Request).method
        = Method.GET ∧
    (⟨Method.GET, "/", [("Host", "example")], "q=1", ""⟩ : Request).path = "/" ∧
    ((dispatch url_map ⟨Method.GET, "/", [("Host", "example")], "q=1", ""⟩).status
        = 200 ∧
      ((dispatch url_map
            ⟨Method.GET, "/", [("Host", "example")], "q=1", ""⟩).contentType
          = "text/plain; charset=utf-8" ∨
        (dispatch url_map
            ⟨Method.GET, "/", [("Host", "example")], "q=1", ""⟩).contentType
          = "text/html; charset=utf-8") ∧
      (dispatch url_map ⟨Method.GET, "/", [("Host", "example")], "q=1", ""⟩).body
        = "Hello from my Flask app!") :=
  ⟨rfl, rfl, C1_root_get_response _ rfl rfl⟩

/-- C2: running the program starts an HTTP listener bound to a
configurable host/port, defaulting to 127.0.0.1:5000, which serves
inbound requests by dispatching them against the routing table. -/
theorem C2_listener :
    (run none none).host = "127.0.0.1" ∧
    (run none none).port = 5000 ∧
    (∀ h : String, ∀ p : Nat,
      (run (some h) (some p)).host = h ∧ (run (some h) (some p)).port = p) ∧
    (∀ req : Request, (run none none).serve req = dispatch url_map req) :=
  ⟨rfl, rfl, fun _ _ => ⟨rfl, rfl⟩, fun _ => rfl⟩

/-- C3 counterexample: a HEAD request to "/" has a (method, path) pair
different from (GET, "/") yet receives status 200, refuting the claim
that every such request gets a non-200 status. -/
theorem C3_counterexample :
    Method.HEAD ≠ Method.GET ∧
    (dispatch url_map ⟨Method.HEAD, "/", [], "", ""⟩).status = 200 := by
  exact ⟨by decide, rfl⟩

/-- C3 (amended): every request to a path other than "/" gets the
framework's 404 not-found status, and every request to "/" whose
method is outside the route's accepted set GET/HEAD/OPTIONS (for
example POST) gets the framework's 405 method-not-allowed status;
both are non-200. -/
theorem C3_unrouted_non_200 (req : Request) :
    (req.path ≠ "/" →
      (dispatch url_map req).status = 404 ∧ (dispatch url_map req).status ≠ 200) ∧
    (req.path = "/" → req.method ∉ defaultMethods →
      (dispatch url_map req).status = 405 ∧ (dispatch url_map req).status ≠ 200) := by
  constructor
  · intro hp
    have hb : ("/" == req.path) = false := beq_eq_false_iff_ne.mpr (Ne.symm hp)
    simp [dispatch, url_map, List.find?, hb, notFound]
  · intro hp hm
    obtain ⟨m, p, h, q, b⟩ := req
    simp only at hp hm
    subst hp
    cases m <;> first
      | exact absurd (by decide) hm
      | exact ⟨rfl, by change (405 : Nat) ≠ 200; decide⟩

/-- C3 witness: the amended theorem at GET "/nonexistent" and at
POST "/". -/
theorem C3_unrouted_non_200_witness :
    ((⟨Method.GET, "/nonexistent", [], "", ""⟩ : Request).path ≠ "/" ∧
      (dispatch url_map ⟨Method.GET, "/nonexistent", [], "", ""⟩).status = 404) ∧
    ((⟨Method.POST, "/", [], "", ""⟩ : Request).path = "/" ∧
      (⟨Method.POST, "/", [], "", ""⟩ : Request).method ∉ defaultMethods ∧
      (dispatch url_map ⟨Method.POST, "/", [], "", ""⟩).status = 405) :=
  ⟨⟨by decide,
      ((C3_unrouted_non_200 ⟨Method.GET, "/nonexistent", [], "", ""⟩).1
        (by decide)).1⟩,
    ⟨rfl, by decide,
      ((C3_unrouted_non_200 ⟨Method.POST, "/", [], "", ""⟩).2 rfl (by decide)).1⟩⟩

/-- C4: the root handler is deterministic: any two invocations on
GET "/" requests return equal bodies, both the literal greeting. -/
theorem C4_deterministic (r1 r2 : Request)
    (h1m : r1.method = Method.GET) (h1p : r1.path = "/")
    (h2m : r2.method = Method.GET) (h2p : r2.path = "/") :
    (dispatch url_map r1).body = (dispatch url_map r2).body ∧
    (dispatch url_map r1).body = "Hello from my Flask app!" := by
  rw [dispatch_root_get r1 h1m h1p, dispatch_root_get r2 h2m h2p]
  exact ⟨rfl, rfl⟩

/-- C4 witness: the theorem applied to two concrete GET "/" requests
with differing request data. -/
theorem C4_deterministic_witness :
    (⟨Method.GET, "/", [], "", ""⟩ : Request).method = Method.GET ∧
    (⟨Method.GET, "/", [], "", ""⟩ : Request).path = "/" ∧
    (⟨Method.GET, "/", [("X", "1")], "a=b", "payload"⟩ : Request).method
        = Method.GET ∧
    (⟨Method.GET, "/", [("X", "1")], "a=b", "payload"⟩ : Request).path = "/" ∧
    ((dispatch url_map ⟨Method.GET, "/", [], "", ""⟩).body =
        (dispatch url_map ⟨Method.GET, "/", [("X", "1")], "a=b", "payload"⟩).body ∧
      (dispatch url_map ⟨Method.GET, "/", [], "", ""⟩).body
        = "Hello from my Flask app!") :=
  ⟨rfl, rfl, rfl, rfl, C4_deterministic _ _ rfl rfl rfl rfl⟩

/-- C5: the handler has no side effects: every invocation leaves the
whole program state (routing table and log alike) unchanged, so the
handler is a pure, stateless function from request to response. -/
theorem C5_no_side_effects :
    (∀ s : AppState, ∀ req : Request, (dispatchSt s req).2 = s) ∧
    (∀ s : AppState, ∀ req : Request,
      ((dispatchSt s req).2.routes = s.routes ∧ (dispatchSt s req).2.log = s.log)) ∧
    (∀ s1 s2 : AppState, ∀ req : Request, s1.routes = s2.routes →
      (dispatchSt s1 req).1 = (dispatchSt s2 req).1) :=
  ⟨fun _ _ => rfl, fun _ _ => ⟨rfl, rfl⟩,
    fun s1 s2 req h => by simp [dispatchSt, h]⟩

/-- C6: the root handler cannot fail: for every well-formed request
routed to it (path "/" with an accepted method) the exception-aware
embedding returns a successful result, never an error. -/
theorem C6_no_failure (req : Request)
    (hp : req.path = "/") (hm : req.method ∈ defaultMethods) :
    dispatchE url_map req = Except.ok (dispatch url_map req) := by
  obtain ⟨m, p, h, q, b⟩ := req
  simp only at hp hm
  subst hp
  fin_cases hm <;> rfl

/-- C6 witness: the theorem applied to a concrete GET "/" request. -/
theorem C6_no_failure_witness :
    (⟨Method.GET, "/", [], "", ""⟩ : Request).path = "/" ∧
    (⟨Method.GET, "/", [], "", ""⟩ : Request).method ∈ defaultMethods ∧
    dispatchE url_map ⟨Method.GET, "/", [], "", ""⟩
      = Except.ok (dispatch url_map ⟨Method.GET, "/", [], "", ""⟩) :=
  ⟨rfl, by decide, C6_no_failure ⟨Method.GET, "/", [], "", ""⟩ rfl (by decide)⟩

/-- C7: the routing table is a static value built once at startup and
never modified by request handling, and it contains exactly one
registered route: the root path mapped to `home_page` with the
framework's default method set. -/
theorem C7_static_single_route :
    url_map.length = 1 ∧
    url_map = [{ path := "/", methods := defaultMethods, handler := home_page }] ∧
    initState.routes = url_map ∧
    (∀ s : AppState, ∀ req : Request, (dispatchSt s req).2.routes = s.routes) :=
  ⟨rfl, rfl, rfl, fun _ _ => rfl⟩

/-- C8: any batch of concurrent GET "/" requests, executed under any
schedule (any permutation of the batch), yields one response per
request, each byte-identical to the single-request response, with the
shared state untouched. -/
theorem C8_concurrent_safe (s : AppState) (hs : s.routes = url_map)
    (reqs schedule : List Request) (hperm : List.Perm reqs schedule)
    (hall : ∀ r ∈ reqs, r.method = Method.GET ∧ r.path = "/") :
    (runAll s schedule).1.length = reqs.length ∧
    (∀ resp ∈ (runAll s schedule).1,
      resp = dispatch url_map ⟨Method.GET, "/", [], "", ""⟩) ∧
    (runAll s schedule).2 = s := by
  refine ⟨?_, ?_, runAll_state s schedule⟩
  · rw [runAll_length s schedule]
    exact (hperm.length_eq).symm
  · intro resp hresp
    obtain ⟨req, hreq, hdisp⟩ := runAll_mem s schedule resp hresp
    obtain ⟨hm, hp⟩ := hall req (hperm.mem_iff.mpr hreq)
    rw [hdisp, hs]
    exact dispatch_only_method_path url_map req _ hm hp

/-- C8 witness: the theorem applied to a concrete two-request batch
and a reordered schedule of it. -/
theorem C8_concurrent_safe_witness :
    initState.routes = url_map ∧
    List.Perm
      [(⟨Method.GET, "/", [], "", ""⟩ : Request), ⟨Method.GET, "/", [("A", "1")], "x=2", "b"⟩]
      [(⟨Method.GET, "/", [("A", "1")], "x=2", "b"⟩ : Request), ⟨Method.GET, "/", [], "", ""⟩] ∧
    (∀ r ∈ [(⟨Method.GET, "/", [], "", ""⟩ : Request), ⟨Method.GET, "/", [("A", "1")], "x=2", "b"⟩],
      r.method = Method.GET ∧ r.path = "/") ∧
    ((runAll initState
        [(⟨Method.GET, "/", [("A", "1")], "x=2", "b"⟩ : Request), ⟨Method.GET, "/", [], "", ""⟩]).1.length
      = 2 ∧
     (∀ resp ∈ (runAll initState
        [(⟨Method.GET, "/", [("A", "1")], "x=2", "b"⟩ : Request), ⟨Method.GET, "/", [], "", ""⟩]).1,
        resp = dispatch url_map ⟨Method.GET, "/", [], "", ""⟩)) :=
  ⟨rfl, List.Perm.swap _ _ _, by decide,
    ((C8_concurrent_safe initState rfl _ _ (List.Perm.swap _ _ _) (by decide)).1),
    ((C8_concurrent_safe initState rfl _ _ (List.Perm.swap _ _ _) (by decide)).2.1)⟩

/-- C9: a route registered without an explicit method list accepts the
framework's default method set: HEAD on "/" answers 200 with an empty
body, OPTIONS on "/" answers 200, and every method outside
GET/HEAD/OPTIONS on "/" is rejected with 405. -/
theorem C9_default_methods (req : Request) (hp : req.path = "/") :
    (req.method = Method.HEAD →
      (dispatch url_map req).status = 200 ∧ (dispatch url_map req).body = "") ∧
    (req.method = Method.OPTIONS → (dispatch url_map req).status = 200) ∧
    (req.method ∉ [Method.GET, Method.HEAD, Method.OPTIONS] →
      (dispatch url_map req).status = 405) := by
  obtain ⟨m, p, h, q, b⟩ := req
  simp only at hp ⊢
  subst hp
  refine ⟨?_, ?_, ?_⟩
  · intro hm; subst hm; exact ⟨rfl, rfl⟩
  · intro hm; subst hm; rfl
  · intro hm
    cases m <;> first
      | exact absurd (by decide) hm
      | rfl

/-- C9 witness: the theorem applied to concrete HEAD, OPTIONS and POST
requests on "/". -/
theorem C9_default_methods_witness :
    (⟨Method.HEAD, "/", [], "", ""⟩ : Request).path = "/" ∧
    ((dispatch url_map ⟨Method.HEAD, "/", [], "", ""⟩).status = 200 ∧
      (dispatch url_map ⟨Method.HEAD, "/", [], "", ""⟩).body = "") ∧
    (dispatch url_map ⟨Method.OPTIONS, "/", [], "", ""⟩).status = 200 ∧
    (dispatch url_map ⟨Method.POST, "/", [], "", ""⟩).status = 405 :=
  ⟨rfl,
    (C9_default_methods ⟨Method.HEAD, "/", [], "", ""⟩ rfl).1 rfl,
    (C9_default_methods ⟨Method.OPTIONS, "/", [], "", ""⟩ rfl).2.1 rfl,
    (C9_default_methods ⟨Method.POST, "/", [], "", ""⟩ rfl).2.2 (by decide)⟩

/-- C10: the handler's output is independent of the request contents:
the handler takes no request data, so any two requests agreeing on
method and path — whatever their headers, query string or body —
receive identical responses, and the handler's return value is the
same fixed string for every invocation. -/
theorem C10_noninterference (r1 r2 : Request)
    (hm : r1.method = r2.method) (hp : r1.path = r2.path) :
    dispatch url_map r1 = dispatch url_map r2 ∧
    (∀ u v : Unit, home_page u = home_page v) :=
  ⟨dispatch_only_method_path url_map r1 r2 hm hp, fun _ _ => rfl⟩

/-- C10 witness: the theorem applied to two concrete GET "/" requests
differing in headers, query string and body. -/
theorem C10_noninterference_witness :
    (⟨Method.GET, "/", [], "", ""⟩ : Request).method
        = (⟨Method.GET, "/", [("Cookie", "s")], "k=v", "data"⟩ : Request).method ∧
    (⟨Method.GET, "/", [], "", ""⟩ : Request).path
        = (⟨Method.GET, "/", [("Cookie", "s")], "k=v", "data"⟩ : Request).path ∧
    dispatch url_map ⟨Method.GET, "/", [], "", ""⟩
      = dispatch url_map ⟨Method.GET, "/", [("Cookie", "s")], "k=v", "data"⟩ :=
  ⟨rfl, rfl,
    (C10_noninterference ⟨Method.GET, "/", [], "", ""⟩
      ⟨Method.GET, "/", [("Cookie", "s")], "k=v", "data"⟩ rfl rfl).1⟩

end FirstFlask
